import Mathlib

/-!
Shallow embedding of the `wireless_client_graph` repository: the
`MerakiAPIWrapper` state and operations (`meraki_api_utils.py`), the history
collection (`project_logic.py`), and the time-window validation and CSV export
of the UI layer (`project_ui.py`).

Conventions of the embedding:
* Python `Optional[str]` values are `Option String`; Python truthiness of such
  a value (`if x:`) is `strTruthy` (`none` and `""` are falsy).
* Aware UTC datetimes are modelled as `Int` seconds since the epoch, so that
  `timedelta(days=31)` is the constant `2678400` and datetime comparison is
  integer comparison.
* Python dictionaries keyed by strings are association lists with
  first-match lookup and overwrite-or-append insertion, matching `dict`
  update semantics.
* A call into the vendor SDK either returns data, raises `meraki.APIError`
  (carrying a status and message) or raises some other exception; this is the
  `UpstreamResult` type, passed to the embedded functions as an explicit
  argument in place of the I/O.
-/

namespace WirelessClientGraph

/-- Python truthiness of an `Optional[str]`: `None` and `""` are falsy. -/
def strTruthy : Option String → Bool
  | none => false
  | some s => !s.isEmpty

/-- Python `a or b` on `Optional[str]` values. -/
def orTruthy (a b : Option String) : Option String :=
  if strTruthy a then a else b

/-- First-match lookup in an association list (Python `dict` access). -/
def dictLookup {α : Type} : List (String × α) → String → Option α
  | [], _ => none
  | p :: rest, key => if p.1 = key then some p.2 else dictLookup rest key

/-- Python `dict` assignment `d[k] = v`: overwrite in place, else append. -/
def dictInsert {α : Type} (d : List (String × α)) (k : String) (v : α) :
    List (String × α) :=
  if d.any (fun p => p.1 = k) then
    d.map (fun p => if p.1 = k then (k, v) else p)
  else d ++ [(k, v)]

/-! ## Time-window validation (`ProjectUI.ui_collect_and_display`) -/

/-- `timedelta(days=31)` in seconds. -/
def days31 : Int := 2678400

/-- Outcome of the four sequential boundary checks in
`ui_collect_and_display`, in source order. -/
inductive WindowCheck
  | rejectEndNotAfterStart
  | rejectEndInFuture
  | rejectStartTooOld
  | rejectSpanTooLong
  | accept
deriving Repr, DecidableEq

/-- The four checks of `ui_collect_and_display` lines 100-126, translated
check for check: `t1_dt <= t0_dt`, then `t1_dt > now_utc`, then
`t0_dt < now_utc - timedelta(days=31)`, then
`t1_dt > t0_dt + timedelta(days=31)`; each rejection returns before the
data fetch, so `accept` is exactly the case in which
`collect_network_data_history` is reached. -/
def validate_time_window (now t0 t1 : Int) : WindowCheck :=
  if t1 ≤ t0 then .rejectEndNotAfterStart
  else if now < t1 then .rejectEndInFuture
  else if t0 < now - days31 then .rejectStartTooOld
  else if t0 + days31 < t1 then .rejectSpanTooLong
  else .accept

/-- The toast message shown for each rejection (`none` when accepted and the
fetch proceeds). -/
def window_message : WindowCheck → Option String
  | .rejectEndNotAfterStart => some "Error: End datetime must be after start datetime."
  | .rejectEndInFuture => some "Error: End datetime cannot be in the future."
  | .rejectStartTooOld => some "Error: Start datetime cannot be older than 31 days from today."
  | .rejectSpanTooLong => some "Error: The selected time range cannot exceed 31 days (End datetime is more than 31 days after Start datetime)."
  | .accept => none

/-- `True` exactly when `ui_collect_and_display` reaches the call to
`collect_network_data_history`. -/
def ui_fetch_attempted (now t0 t1 : Int) : Bool :=
  match validate_time_window now t0 t1 with
  | .accept => true
  | _ => false

/-! ## Records returned by the vendor API -/

/-- An organization record as returned by `getOrganizations` (the fields the
code reads; `extra` stands for the rest of the raw record). -/
structure Org where
  id : String
  name : String
  url : String
  apiEnabled : Bool
  licensingModel : String
  extra : String := ""
deriving Repr, DecidableEq

/-- A network record as returned by `getOrganizationNetworks` (the fields the
code reads; `extra` stands for the rest of the raw record). `ntype` embeds the
record's `"type"` key. -/
structure Network where
  id : String
  name : String
  ntype : String
  timeZone : String
  tags : List String
  productTypes : List String
  extra : String := ""
deriving Repr, DecidableEq

/-- The formatted network dictionary built by `list_networks` (keys `id`,
`name`, `type`, `time zone`, `tags`, `productTypes`). -/
structure NetworkView where
  id : String
  name : String
  ntype : String
  timeZone : String
  tags : List String
  productTypes : List String
deriving Repr, DecidableEq

/-- The projection applied to each network that passes the filters. -/
def networkView (net : Network) : NetworkView :=
  ⟨net.id, net.name, net.ntype, net.timeZone, net.tags, net.productTypes⟩

/-! ## Filtering in `list_networks` -/

/-- `tags_match` for one network: `True` unless `filter_tags` is truthy
(non-`None`, non-empty) and no requested tag occurs among the network's
tags. -/
def tags_match (filter_tags : Option (List String)) (net : Network) : Bool :=
  match filter_tags with
  | none => true
  | some l => if l.isEmpty then true else l.any (fun t => net.tags.contains t)

/-- `product_type_match` for one network: `True` unless `filter_product_type`
is truthy and no requested product type occurs among the network's product
types. -/
def product_type_match (filter_product_type : Option (List String)) (net : Network) : Bool :=
  match filter_product_type with
  | none => true
  | some l => if l.isEmpty then true else l.any (fun t => net.productTypes.contains t)

/-- The `filtered_networks` list accumulated by the loop in `list_networks`:
the networks of the response for which both matches hold. -/
def filtered_networks (response : List Network)
    (filter_tags filter_product_type : Option (List String)) : List Network :=
  response.filter (fun net => tags_match filter_tags net && product_type_match filter_product_type net)

/-! ## Wrapper state (`MerakiAPIWrapper`) -/

/-- The `required_app_setup_param` dictionary; a key missing from the Python
dict is read with `.get(key, False)`, so it is embedded as `false`. -/
structure ReqParams where
  api_key : Bool := false
  organization_id : Bool := false
  network_id : Bool := false
deriving Repr, DecidableEq

/-- The `app_setup_param` dictionary handed to `setup_application_parameters`
(`params.get` of a missing key is `None`). -/
structure SetupParams where
  api_key : Option String := none
  organization_id : Option String := none
  org_name : Option String := none
  network_id : Option String := none
  net_name : Option String := none
deriving Repr, DecidableEq

/-- The mutable attributes of a `MerakiAPIWrapper` instance. `dashboard`
records whether `_dashboard` holds a client (`true`) or is `None`. -/
structure WrapperState where
  api_key : Option String := none
  organization_id : Option String := none
  organization_name : Option String := none
  network_id : Option String := none
  network_name : Option String := none
  enable_caching : Bool := false
  dashboard : Bool := false
  organizations_cache : Option (List Org) := none
  networks_cache : Option (List (String × List Network)) := none
  required_app_setup_param : ReqParams := {}
deriving Repr, DecidableEq

/-- `_is_attr_set` applied to `_api_key`. -/
def is_api_key_set (s : WrapperState) : Bool := strTruthy s.api_key

/-- `_is_attr_set` applied to `_organization_id`. -/
def is_organization_id_set (s : WrapperState) : Bool := strTruthy s.organization_id

/-- `_is_attr_set` applied to `_network_id`. -/
def is_network_id_set (s : WrapperState) : Bool := strTruthy s.network_id

/-! ## Setters -/

/-- `_set_attr` on the pair (id attribute, name attribute): a truthy id is
stored, and the name is stored only when it too is truthy; a falsy id leaves
both attributes untouched. -/
def set_attr_pair (cur : Option String × Option String)
    (id_value name_value : Option String) : Option String × Option String :=
  if strTruthy id_value then
    (id_value, if strTruthy name_value then name_value else cur.2)
  else cur

/-- `set_organization_id`: delegates to `_set_attr` on
(`_organization_id`, `_organization_name`). -/
def set_organization_id (s : WrapperState)
    (organization_id organization_name : Option String) : WrapperState :=
  let p := set_attr_pair (s.organization_id, s.organization_name) organization_id organization_name
  { s with organization_id := p.1, organization_name := p.2 }

/-- `set_network_id`: delegates to `_set_attr` on
(`_network_id`, `_network_name`). -/
def set_network_id (s : WrapperState)
    (network_id network_name : Option String) : WrapperState :=
  let p := set_attr_pair (s.network_id, s.network_name) network_id network_name
  { s with network_id := p.1, network_name := p.2 }

/-- `set_api_key`: a truthy argument is stored; otherwise the environment
variable `MK_CSM_KEY` (passed here explicitly as `env`) is consulted, and
`_api_key` becomes `None` when that too is falsy. `_dashboard` is then
re-initialized exactly when the resulting key is truthy. -/
def set_api_key (s : WrapperState) (api_key env : Option String) : WrapperState :=
  let k : Option String :=
    if strTruthy api_key then api_key
    else if strTruthy env then env
    else none
  { s with api_key := k, dashboard := strTruthy k }

/-- `get_dashboard`: returns the existing client, or initializes one when the
key is truthy; yields whether a client is available together with the updated
state. -/
def get_dashboard (s : WrapperState) : Bool × WrapperState :=
  if s.dashboard then (true, s)
  else if strTruthy s.api_key then (true, { s with dashboard := true })
  else (false, s)

/-! ## Fetching and caching (`_fetch_data` and its callers) -/

/-- Behaviour of one call into the vendor SDK: data, a `meraki.APIError`
(status and message), or any other exception. -/
inductive UpstreamResult (α : Type)
  | ok (data : α)
  | apiError (status : Int) (message : String)
  | exn (message : String)
deriving Repr, DecidableEq

/-- The error dictionary shape built by the wrapper: `{"error": ...,
"details": ...}` with `"status_code"` present only for `MerakiAPIError`. -/
structure ErrorDict where
  error : String
  details : String
  status_code : Option Int := none
deriving Repr, DecidableEq

/-- Result, post-state and whether the upstream fetch function was invoked. -/
structure FetchOut (α : Type) where
  result : Sum α ErrorDict
  state : WrapperState
  upstreamCalled : Bool
deriving Repr

/-- The part of keyless `_fetch_data` after the cache check: `get_dashboard`
guard, then the try/except around the fetch with the caching writes of each
branch. -/
def fetch_data_organizations_miss (s : WrapperState)
    (up : UpstreamResult (List Org)) : FetchOut (List Org) :=
  let d := get_dashboard s
  if !d.1 then
    ⟨.inr ⟨"DashboardAPIError", "Meraki Dashboard API not initialized.", none⟩, d.2, false⟩
  else
    let s1 := d.2
    match up with
    | .ok data =>
      let s2 := if s1.enable_caching then { s1 with organizations_cache := some data } else s1
      ⟨.inl data, s2, true⟩
    | .apiError status message =>
      let s2 := if s1.enable_caching then { s1 with organizations_cache := some [] } else s1
      ⟨.inr ⟨"MerakiAPIError", message, some status⟩, s2, true⟩
    | .exn message =>
      let s2 := if s1.enable_caching then { s1 with organizations_cache := some [] } else s1
      ⟨.inr ⟨"UnexpectedError", message, none⟩, s2, true⟩

/-- `_fetch_data` with `cache_attr = "_organizations_cache"` and
`cache_key = None`: the cache hit check, falling back to
`fetch_data_organizations_miss`. -/
def fetch_data_organizations (s : WrapperState) (use_cache : Bool)
    (up : UpstreamResult (List Org)) : FetchOut (List Org) :=
  match use_cache && s.enable_caching, s.organizations_cache with
  | true, some cache => ⟨.inl cache, s, false⟩
  | _, _ => fetch_data_organizations_miss s up

/-- The part of keyed `_fetch_data` after the cache check: `get_dashboard`
guard, then the try/except around the fetch; each caching write creates the
cache dictionary (`{}`) when it is still `None` before writing the key. -/
def fetch_data_networks_miss (s : WrapperState) (cache_key : String)
    (up : UpstreamResult (List Network)) : FetchOut (List Network) :=
  let d := get_dashboard s
  if !d.1 then
    ⟨.inr ⟨"DashboardAPIError", "Meraki Dashboard API not initialized.", none⟩, d.2, false⟩
  else
    let s1 := d.2
    let store (v : List Network) (st : WrapperState) : WrapperState :=
      if st.enable_caching then
        { st with networks_cache := some (dictInsert (st.networks_cache.getD []) cache_key v) }
      else st
    match up with
    | .ok data => ⟨.inl data, store data s1, true⟩
    | .apiError status message =>
      ⟨.inr ⟨"MerakiAPIError", message, some status⟩, store [] s1, true⟩
    | .exn message =>
      ⟨.inr ⟨"UnexpectedError", message, none⟩, store [] s1, true⟩

/-- `_fetch_data` with `cache_attr = "_networks_cache"` and
`cache_key = org_id`: the keyed variant of the cache hit check, falling back
to `fetch_data_networks_miss`. -/
def fetch_data_networks (s : WrapperState) (cache_key : String) (use_cache : Bool)
    (up : UpstreamResult (List Network)) : FetchOut (List Network) :=
  match use_cache && s.enable_caching, s.networks_cache with
  | true, some cache =>
    match dictLookup cache cache_key with
    | some v => ⟨.inl v, s, false⟩
    | none => fetch_data_networks_miss s cache_key up
  | _, _ => fetch_data_networks_miss s cache_key up

/-- `_get_organizations`: guards on `_dashboard is None`, then delegates to
`_fetch_data`. -/
def get_organizations (s : WrapperState) (use_cache : Bool)
    (up : UpstreamResult (List Org)) : FetchOut (List Org) :=
  if !s.dashboard then
    ⟨.inr ⟨"DashboardAPIError", "Meraki Dashboard API client is not initialized.", none⟩, s, false⟩
  else fetch_data_organizations s use_cache up

/-- `_get_networks`: guards on `_dashboard is None`, resolves
`organization_id or self.get_organization_id()`, rejects a falsy result, then
delegates to `_fetch_data` keyed by the resolved organization id. -/
def get_networks (s : WrapperState) (organization_id : Option String) (use_cache : Bool)
    (up : UpstreamResult (List Network)) : FetchOut (List Network) :=
  if !s.dashboard then
    ⟨.inr ⟨"DashboardAPIError", "Meraki Dashboard API client is not initialized.", none⟩, s, false⟩
  else
    let org_id := orTruthy organization_id s.organization_id
    match org_id with
    | some o =>
      if o.isEmpty then
        ⟨.inr ⟨"NoOrganizationSelected", "Please select an organization first.", none⟩, s, false⟩
      else fetch_data_networks s o use_cache up
    | none =>
      ⟨.inr ⟨"NoOrganizationSelected", "Please select an organization first.", none⟩, s, false⟩

/-- The formatted organization dictionary built by `list_organizations`. -/
structure OrgView where
  id : String
  name : String
  url : String
  apiEnabled : Bool
  licensingModel : String
deriving Repr, DecidableEq

/-- The projection `list_organizations` applies to each organization. -/
def orgView (org : Org) : OrgView :=
  ⟨org.id, org.name, org.url, org.apiEnabled, org.licensingModel⟩

/-- The error-passthrough/projection step of `list_organizations`. -/
def format_organizations_output (o : FetchOut (List Org)) : FetchOut (List OrgView) :=
  match o.result with
  | .inr e => ⟨.inr e, o.state, o.upstreamCalled⟩
  | .inl response => ⟨.inl (response.map orgView), o.state, o.upstreamCalled⟩

/-- `list_organizations`: passes errors through and maps the projection over
a successful response (the empty response is returned as `[]`, which the map
also yields). -/
def list_organizations (s : WrapperState) (use_cache : Bool)
    (up : UpstreamResult (List Org)) : FetchOut (List OrgView) :=
  format_organizations_output (get_organizations s use_cache up)

/-- The error-passthrough/filter/projection step of `list_networks` (the two
early returns of `[]` coincide with mapping over an empty filtered list). -/
def format_networks_output (filter_tags filter_product_type : Option (List String))
    (o : FetchOut (List Network)) : FetchOut (List NetworkView) :=
  match o.result with
  | .inr e => ⟨.inr e, o.state, o.upstreamCalled⟩
  | .inl response =>
    ⟨.inl ((filtered_networks response filter_tags filter_product_type).map networkView),
      o.state, o.upstreamCalled⟩

/-- `list_networks`: rejects when neither the argument nor the stored
organization id is truthy, then calls `_get_networks` (with the original
argument), passes errors through, and otherwise filters and projects the
response. -/
def list_networks (s : WrapperState) (organization_id : Option String) (use_cache : Bool)
    (filter_tags filter_product_type : Option (List String))
    (up : UpstreamResult (List Network)) : FetchOut (List NetworkView) :=
  if !strTruthy (orTruthy organization_id s.organization_id) then
    ⟨.inr ⟨"ConfigurationError", "Organization ID is not provided and cannot be determined.", none⟩, s, false⟩
  else
    format_networks_output filter_tags filter_product_type
      (get_networks s organization_id use_cache up)

/-! ## Setup (`_check_required_parameter_order`, `setup_application_parameters`) -/

/-- `_check_required_parameter_order`: `organization_id` may not be required
without `api_key`, and `network_id` may not be required without both. -/
def check_required_parameter_order (r : ReqParams) : Bool :=
  if r.organization_id && !r.api_key then false
  else if r.network_id && (!r.api_key || !r.organization_id) then false
  else true

/-- The caching-flag update at the top of `setup_application_parameters`:
`if enable_caching is not None: self._enable_caching = enable_caching`. -/
def apply_enable_caching (s : WrapperState) (enable_caching : Option Bool) : WrapperState :=
  match enable_caching with
  | some b => { s with enable_caching := b }
  | none => s

/-- The `network_id` phase of `setup_application_parameters`: guard on both
prerequisites being set, require a truthy `network_id` parameter, store it,
and re-check that it is now set. -/
def setup_network_phase (s : WrapperState) (required : ReqParams)
    (params : SetupParams) : Bool × WrapperState :=
  if required.network_id then
    if !is_api_key_set s || !is_organization_id_set s then (false, s)
    else if strTruthy params.network_id then
      let s' := set_network_id s params.network_id params.net_name
      if !is_network_id_set s' then (false, s') else (true, s')
    else (false, s)
  else (true, s)

/-- The `organization_id` phase of `setup_application_parameters`, followed by
the network phase: guard on the api key being set, require a truthy
`organization_id` parameter, store it, and re-check that it is now set. -/
def setup_org_phase (s : WrapperState) (required : ReqParams)
    (params : SetupParams) : Bool × WrapperState :=
  if required.organization_id then
    if !is_api_key_set s then (false, s)
    else if strTruthy params.organization_id then
      let s' := set_organization_id s params.organization_id params.org_name
      if !is_organization_id_set s' then (false, s')
      else setup_network_phase s' required params
    else (false, s)
  else setup_network_phase s required params

/-- `setup_application_parameters`: updates the caching flag, validates the
required-parameter ordering, stores the required map, then runs the api-key,
organization and network phases in turn, each aborting with `False` on its
guard; `env` stands for the environment variable `MK_CSM_KEY` read by
`set_api_key`. -/
def setup_application_parameters (s : WrapperState) (required : ReqParams)
    (params : SetupParams) (enable_caching : Option Bool) (env : Option String) :
    Bool × WrapperState :=
  let s1 := apply_enable_caching s enable_caching
  if !check_required_parameter_order required then (false, s1)
  else
    let s2 := { s1 with required_app_setup_param := required }
    let s3 := if required.api_key then set_api_key s2 params.api_key env else s2
    if required.api_key && !is_api_key_set s3 then (false, s3)
    else setup_org_phase s3 required params

/-! ## History collection (`ProjectLogic.collect_network_data_history`) -/

/-- One sample of the client-count history (`clientCount` is nullable). -/
structure HistSample where
  startTs : String
  endTs : String
  clientCount : Option Int
deriving Repr, DecidableEq

/-- An input network record as consumed by the collection loop: `id` is read
by subscript, `name` with `.get('name', default)` (so `none` embeds a record
without the key). -/
structure NetRecord where
  id : String
  name : Option String
deriving Repr, DecidableEq

/-- `network.get('name', f"Unnamed Network ({network_id})")`. -/
def net_record_name (n : NetRecord) : String :=
  n.name.getD ("Unnamed Network (" ++ n.id ++ ")")

/-- The `{name, history}` value stored per network id. -/
structure NetEntry where
  name : String
  history : List HistSample
deriving Repr, DecidableEq

/-- The entry the loop body stores for one network: the fetched history on
success, `[]` on `meraki.APIError` or any other exception. -/
def collect_entry (up : String → UpstreamResult (List HistSample)) (n : NetRecord) : NetEntry :=
  match up n.id with
  | .ok history => ⟨net_record_name n, history⟩
  | .apiError _ _ => ⟨net_record_name n, []⟩
  | .exn _ => ⟨net_record_name n, []⟩

/-- The collection loop: one dictionary assignment per input network. -/
def collect_loop (up : String → UpstreamResult (List HistSample)) :
    List NetRecord → List (String × NetEntry) → List (String × NetEntry)
  | [], acc => acc
  | n :: rest, acc => collect_loop up rest (dictInsert acc n.id (collect_entry up n))

/-- `collect_network_data_history`: returns the empty dictionary when
`get_dashboard` yields no client, otherwise runs the per-network loop; `up`
embeds `getNetworkWirelessClientCountHistory` for the fixed `t0`/`t1` of the
call. -/
def collect_network_data_history (s : WrapperState) (networks_list : List NetRecord)
    (up : String → UpstreamResult (List HistSample)) : List (String × NetEntry) :=
  if !(get_dashboard s).1 then []
  else collect_loop up networks_list []

/-! ## CSV export of the chart data (`ProjectUI.display_graph.download_csv`) -/

/-- One CSV cell: a string, an integer count, or Python `None` (a present
sample whose `clientCount` is null is appended as-is). -/
inductive Cell
  | str (s : String)
  | int (n : Int)
  | null
deriving Repr, DecidableEq

/-- The count cell for one network at row index `i`:
`client_history[i]['clientCount']` when the sample exists, else `0`. -/
def csv_count_cell (history : List HistSample) (i : Nat) : Cell :=
  match history.get? i with
  | some sample =>
    match sample.clientCount with
    | some n => .int n
    | none => .null
  | none => .int 0

/-- The header row: `"Timestamp"` followed by one network name per entry of
`graph_data` (collection always stores a name, so `.get('name', ...)` finds
one). -/
def csv_header (graph_data : List (String × NetEntry)) : List Cell :=
  .str "Timestamp" :: graph_data.map (fun p => .str p.2.name)

/-- The data row for the `i`-th timestamp. -/
def csv_data_row (graph_data : List (String × NetEntry)) (ts : String) (i : Nat) : List Cell :=
  .str ts :: graph_data.map (fun p => csv_count_cell p.2.history i)

/-- All rows written by `download_csv`: the header, then one row per entry of
`timestamps`. -/
def csv_rows (graph_data : List (String × NetEntry)) (timestamps : List String) :
    List (List Cell) :=
  csv_header graph_data ::
    (List.range timestamps.length).map
      (fun i => csv_data_row graph_data (timestamps.getD i "") i)

/-! ## Parameter display (`get_current_app_params`) -/

/-- One displayed parameter: its value and label. -/
structure ParamView where
  value : String
  label : String
deriving Repr, DecidableEq

/-- The masking expression of `get_current_app_params`:
`api_key = self._api_key or ""`, then `"*" * max(len(api_key) - 4, 0) +
api_key[-4:]` when the key is truthy, else `"N/A"`. -/
def masked_api_key (api_key : Option String) : String :=
  let k : List Char := (api_key.getD "").toList
  if k.isEmpty then "N/A"
  else String.mk (List.replicate (k.length - 4) '*' ++ k.drop (k.length - 4))

/-- Python `x or "N/A"` on an `Optional[str]` display value. -/
def display_or_na (x : Option String) : String :=
  if strTruthy x then x.getD "" else "N/A"

/-- `get_current_app_params`: the display dictionary, one block per required
parameter. -/
def get_current_app_params (s : WrapperState) : List (String × ParamView) :=
  let req := s.required_app_setup_param
  (if req.api_key then [("api_key", ⟨masked_api_key s.api_key, "API Key"⟩)] else [])
  ++ (if req.organization_id then
        [("organization_id", ⟨display_or_na s.organization_id, "Organization ID"⟩),
         ("organization_name", ⟨display_or_na s.organization_name, "Organization Name"⟩)]
      else [])
  ++ (if req.network_id then
        [("network_id", ⟨display_or_na s.network_id, "Network ID"⟩),
         ("network_name", ⟨display_or_na s.network_name, "Network Name"⟩)]
      else [])

/-! ## Theorems -/

/-- C1: Time-window validation applies exactly four checks in source order,
each rejecting with its own distinct message before any data fetch: end ≤
start, end > now, start < now − 31 days, end > start + 31 days; any input
passing all four (boundaries included) is accepted and the fetch proceeds. -/
theorem c1_time_window_validation (now t0 t1 : Int) :
    (validate_time_window now t0 t1 = .rejectEndNotAfterStart ↔ t1 ≤ t0)
    ∧ (validate_time_window now t0 t1 = .rejectEndInFuture ↔ t0 < t1 ∧ now < t1)
    ∧ (validate_time_window now t0 t1 = .rejectStartTooOld ↔
        t0 < t1 ∧ t1 ≤ now ∧ t0 < now - days31)
    ∧ (validate_time_window now t0 t1 = .rejectSpanTooLong ↔
        t0 < t1 ∧ t1 ≤ now ∧ now - days31 ≤ t0 ∧ t0 + days31 < t1)
    ∧ (validate_time_window now t0 t1 = .accept ↔
        t0 < t1 ∧ t1 ≤ now ∧ now - days31 ≤ t0 ∧ t1 ≤ t0 + days31)
    ∧ (ui_fetch_attempted now t0 t1 = true ↔ validate_time_window now t0 t1 = .accept)
    ∧ ([window_message .rejectEndNotAfterStart, window_message .rejectEndInFuture,
        window_message .rejectStartTooOld, window_message .rejectSpanTooLong,
        window_message .accept].Nodup)
    ∧ (window_message (validate_time_window now t0 t1) = none ↔
        validate_time_window now t0 t1 = .accept) := by
  have hnd : [window_message .rejectEndNotAfterStart, window_message .rejectEndInFuture,
      window_message .rejectStartTooOld, window_message .rejectSpanTooLong,
      window_message .accept].Nodup := by decide
  refine ⟨?_, ?_, ?_, ?_, ?_, ?_, hnd, ?_⟩
  · unfold validate_time_window; split_ifs with h1 h2 h3 h4 <;> simp <;> omega
  · unfold validate_time_window; split_ifs with h1 h2 h3 h4 <;> simp <;> omega
  · unfold validate_time_window; split_ifs with h1 h2 h3 h4 <;> simp <;> omega
  · unfold validate_time_window; split_ifs with h1 h2 h3 h4 <;> simp <;> omega
  · unfold validate_time_window; split_ifs with h1 h2 h3 h4 <;> simp <;> omega
  · cases h : validate_time_window now t0 t1 <;> simp [ui_fetch_attempted, h]
  · cases h : validate_time_window now t0 t1 <;> simp [window_message, h]

/-- Witness for C1 at both 31-day boundaries: `now = 2·31 days`,
`start = now − 31 days` (exactly at the lookback limit), `end = now`
(exactly at "now" and exactly `start + 31 days`) is accepted. -/
theorem c1_time_window_validation_witness :
    validate_time_window 5356800 2678400 5356800 = WindowCheck.accept :=
  ((c1_time_window_validation 5356800 2678400 5356800).2.2.2.2.1).mpr (by decide)

/-- C10: `_set_attr` with a falsy id leaves the wrapper state unchanged, and
with a truthy id but a falsy name updates only the id attribute, leaving the
previously stored name in place. -/
theorem c10_set_attr_frame (s : WrapperState) (idv namev : Option String) :
    (strTruthy idv = false →
      set_organization_id s idv namev = s ∧ set_network_id s idv namev = s)
    ∧ (strTruthy idv = true → strTruthy namev = false →
      set_organization_id s idv namev = { s with organization_id := idv } ∧
      set_network_id s idv namev = { s with network_id := idv }) := by
  constructor
  · intro h
    simp [set_organization_id, set_network_id, set_attr_pair, h]
  · intro h hn
    simp [set_organization_id, set_network_id, set_attr_pair, h, hn]

/-- Witness for C10: a fresh state with a non-empty organization id and no
name stores only the id, and a falsy network id changes nothing. -/
theorem c10_set_attr_frame_witness :
    set_organization_id {} (some "org1") none =
      { ({} : WrapperState) with organization_id := some "org1" } ∧
    set_network_id {} none none = ({} : WrapperState) :=
  ⟨((c10_set_attr_frame {} (some "org1") none).2 (by decide) (by decide)).1,
   ((c10_set_attr_frame {} none none).1 (by decide)).2⟩

/-- C5 counterexample: in the fresh state no API key (and no organization id)
is set, yet `set_organization_id` stores an organization id and
`set_network_id` stores a network id — the setters enforce no dependency. -/
theorem c5_counterexample :
    ({} : WrapperState).api_key = none ∧
    ({} : WrapperState).organization_id = none ∧
    (set_organization_id {} (some "org1") none).organization_id = some "org1" ∧
    (set_network_id {} (some "net1") none).network_id = some "net1" := by
  decide

/-- `set_organization_id` never touches the api-key or network fields. -/
theorem set_organization_id_frame (s : WrapperState) (idv namev : Option String) :
    (set_organization_id s idv namev).api_key = s.api_key ∧
    (set_organization_id s idv namev).network_id = s.network_id := by
  constructor <;> rfl

/-- `set_network_id` never touches the api-key or organization fields. -/
theorem set_network_id_frame (s : WrapperState) (idv namev : Option String) :
    (set_network_id s idv namev).api_key = s.api_key ∧
    (set_network_id s idv namev).organization_id = s.organization_id := by
  constructor <;> rfl

/-- The network phase never touches the api-key or organization fields. -/
theorem setup_network_phase_frame (s : WrapperState) (required : ReqParams)
    (params : SetupParams) :
    (setup_network_phase s required params).2.api_key = s.api_key ∧
    (setup_network_phase s required params).2.organization_id = s.organization_id := by
  simp only [setup_network_phase]
  split_ifs <;> exact ⟨rfl, rfl⟩

/-- A successful network phase with `network_id` required had both
prerequisites set on entry. -/
theorem setup_network_phase_guard (s : WrapperState) (required : ReqParams)
    (params : SetupParams) (hr : required.network_id = true)
    (h : (setup_network_phase s required params).1 = true) :
    is_api_key_set s = true ∧ is_organization_id_set s = true := by
  rw [setup_network_phase, if_pos hr] at h
  by_cases hg : (!is_api_key_set s || !is_organization_id_set s) = true
  · rw [if_pos hg] at h
    simp at h
  · simpa using hg

/-- A successful organization phase establishes the claim's dependencies for
whichever of the organization and network ids were required. -/
theorem setup_org_phase_success (s : WrapperState) (required : ReqParams)
    (params : SetupParams)
    (h : (setup_org_phase s required params).1 = true) :
    (required.organization_id = true →
      is_api_key_set (setup_org_phase s required params).2 = true ∧
      is_organization_id_set (setup_org_phase s required params).2 = true) ∧
    (required.network_id = true →
      is_api_key_set (setup_org_phase s required params).2 = true ∧
      is_organization_id_set (setup_org_phase s required params).2 = true) := by
  by_cases hro : required.organization_id = true
  · rw [setup_org_phase, if_pos hro] at h ⊢
    by_cases hk : is_api_key_set s = true
    · simp only [hk, Bool.not_true, Bool.false_eq_true, if_false] at h ⊢
      by_cases hid : strTruthy params.organization_id = true
      · rw [if_pos hid] at h ⊢
        have hset : is_organization_id_set
            (set_organization_id s params.organization_id params.org_name) = true := by
          simp [is_organization_id_set, set_organization_id, set_attr_pair, hid]
        simp only [hset, Bool.not_true, Bool.false_eq_true, if_false] at h ⊢
        have hfr := setup_network_phase_frame
          (set_organization_id s params.organization_id params.org_name) required params
        have hkey : is_api_key_set
            (setup_network_phase (set_organization_id s params.organization_id params.org_name)
              required params).2 = true := by
          rw [is_api_key_set, hfr.1, (set_organization_id_frame s _ _).1]
          exact hk
        have horg : is_organization_id_set
            (setup_network_phase (set_organization_id s params.organization_id params.org_name)
              required params).2 = true := by
          rw [is_organization_id_set, hfr.2]
          exact hset
        exact ⟨fun _ => ⟨hkey, horg⟩, fun _ => ⟨hkey, horg⟩⟩
      · rw [if_neg hid] at h
        simp at h
    · have : (!is_api_key_set s) = true := by simp [Bool.not_eq_true] at hk ⊢; exact hk
      rw [if_pos this] at h
      simp at h
  · rw [setup_org_phase, if_neg hro] at h ⊢
    refine ⟨fun horg => absurd horg hro, fun hn => ?_⟩
    have hg := setup_network_phase_guard s required params hn h
    have hfr := setup_network_phase_frame s required params
    constructor
    · rw [is_api_key_set, hfr.1]; exact hg.1
    · rw [is_organization_id_set, hfr.2]; exact hg.2

/-- C5 amended: the setters themselves enforce no dependency — any truthy id
is stored regardless of the API key or organization state — while the
dependency invariant is instead enforced by `setup_application_parameters`:
whenever it reports success, a required organization id implies the API key is
set in the final state, and a required network id implies both the API key and
the organization id are set. -/
theorem c5_setters_unconditional (s : WrapperState) (idv namev : Option String)
    (required : ReqParams) (params : SetupParams) (ec : Option Bool)
    (env : Option String) :
    (strTruthy idv = true →
      (set_organization_id s idv namev).organization_id = idv ∧
      (set_network_id s idv namev).network_id = idv)
    ∧ ((setup_application_parameters s required params ec env).1 = true →
        (required.organization_id = true →
          is_api_key_set (setup_application_parameters s required params ec env).2 = true ∧
          is_organization_id_set (setup_application_parameters s required params ec env).2 = true) ∧
        (required.network_id = true →
          is_api_key_set (setup_application_parameters s required params ec env).2 = true ∧
          is_organization_id_set (setup_application_parameters s required params ec env).2 = true)) := by
  constructor
  · intro h
    constructor <;> simp [set_organization_id, set_network_id, set_attr_pair, h]
  · intro hsucc
    unfold setup_application_parameters at hsucc ⊢
    by_cases hord : check_required_parameter_order required = true
    · simp only [hord, Bool.not_true, Bool.false_eq_true, if_false] at hsucc ⊢
      by_cases hg : (required.api_key &&
          !is_api_key_set (if required.api_key then
            set_api_key { apply_enable_caching s ec with
              required_app_setup_param := required } params.api_key env
          else { apply_enable_caching s ec with
              required_app_setup_param := required })) = true
      · rw [if_pos hg] at hsucc
        simp at hsucc
      · rw [if_neg hg] at hsucc ⊢
        exact setup_org_phase_success _ required params hsucc
    · simp only [Bool.not_eq_true] at hord
      simp only [hord, Bool.not_false, if_true] at hsucc
      simp at hsucc

/-- Witness for C5 amended: in an empty state the organization id is stored
although no API key is present, and a fully-supplied setup succeeds with all
dependencies satisfied. -/
theorem c5_setters_unconditional_witness :
    (set_organization_id {} (some "o2") (some "Org Two")).organization_id = some "o2" :=
  ((c5_setters_unconditional {} (some "o2") (some "Org Two")
    {} {} none none).1 (by decide)).1

/-- C6 counterexample: a required-parameter map requiring `network_id` alone
is rejected (returns `False`), yet the wrapper state is not left unchanged —
the caching flag is updated from the `enable_caching` argument before the
ordering check runs. -/
theorem c6_counterexample :
    (setup_application_parameters {} { network_id := true } {} (some true) none).1 = false ∧
    (setup_application_parameters {} { network_id := true } {} (some true) none).2.enable_caching
      = true ∧
    ({} : WrapperState).enable_caching = false := by
  decide

/-- C6 amended: a required-parameter map requiring `network_id` without
`organization_id`, or `organization_id` without `api_key`, makes
`setup_application_parameters` return `False` before any setup proceeds: no
credential or scope field is set and the stored required-parameter map is not
replaced; the one state change that does happen first is the caching-flag
update from the `enable_caching` argument. -/
theorem c6_reject_invalid_required_map (s : WrapperState) (required : ReqParams)
    (params : SetupParams) (ec : Option Bool) (env : Option String)
    (h : (required.network_id = true ∧ required.organization_id = false) ∨
         (required.organization_id = true ∧ required.api_key = false)) :
    setup_application_parameters s required params ec env =
      (false, apply_enable_caching s ec) ∧
    (apply_enable_caching s ec).api_key = s.api_key ∧
    (apply_enable_caching s ec).organization_id = s.organization_id ∧
    (apply_enable_caching s ec).organization_name = s.organization_name ∧
    (apply_enable_caching s ec).network_id = s.network_id ∧
    (apply_enable_caching s ec).network_name = s.network_name ∧
    (apply_enable_caching s ec).dashboard = s.dashboard ∧
    (apply_enable_caching s ec).required_app_setup_param = s.required_app_setup_param := by
  have hord : check_required_parameter_order required = false := by
    rcases h with ⟨h1, h2⟩ | ⟨h1, h2⟩ <;>
      simp [check_required_parameter_order, h1, h2]
  refine ⟨?_, ?_⟩
  · unfold setup_application_parameters
    simp [hord]
  · cases ec <;> simp [apply_enable_caching]

/-- Witness for C6 amended: the map requiring only `network_id` is rejected
with only the caching flag updated. -/
theorem c6_reject_invalid_required_map_witness :
    setup_application_parameters {} { network_id := true } {} (some true) none =
      (false, apply_enable_caching {} (some true)) :=
  (c6_reject_invalid_required_map {} { network_id := true } {} (some true) none
    (Or.inl ⟨rfl, rfl⟩)).1

/-- `tags_match` holds iff the filter is `None`/empty or some requested tag
occurs among the network's tags. -/
theorem tags_match_iff (ft : Option (List String)) (net : Network) :
    tags_match ft net = true ↔
      (ft.getD [] = [] ∨ ∃ t ∈ ft.getD [], t ∈ net.tags) := by
  cases ft with
  | none => simp [tags_match]
  | some l =>
    simp only [tags_match, Option.getD_some]
    by_cases hl : l.isEmpty
    · simp [hl, List.isEmpty_iff.mp hl]
    · rw [if_neg hl]
      have hne : l ≠ [] := fun he => hl (by simp [he])
      simp only [List.any_eq_true, List.elem_iff, hne, false_or]

/-- `product_type_match` holds iff the filter is `None`/empty or some
requested product type is supported by the network. -/
theorem product_type_match_iff (fpt : Option (List String)) (net : Network) :
    product_type_match fpt net = true ↔
      (fpt.getD [] = [] ∨ ∃ p ∈ fpt.getD [], p ∈ net.productTypes) := by
  cases fpt with
  | none => simp [product_type_match]
  | some l =>
    simp only [product_type_match, Option.getD_some]
    by_cases hl : l.isEmpty
    · simp [hl, List.isEmpty_iff.mp hl]
    · rw [if_neg hl]
      have hne : l ≠ [] := fun he => hl (by simp [he])
      simp only [List.any_eq_true, List.elem_iff, hne, false_or]

/-- C2: a network of the upstream response appears in the `list_networks`
result iff (no tag filter OR it has at least one requested tag) AND (no
product-type filter OR it supports at least one requested product type); and
on a successful fetch the returned list is exactly the projection of the
networks so filtered. -/
theorem c2_list_networks_filtering (response : List Network)
    (ft fpt : Option (List String)) (net : Network) (s : WrapperState) :
    (net ∈ filtered_networks response ft fpt ↔
      net ∈ response ∧
      (ft.getD [] = [] ∨ ∃ t ∈ ft.getD [], t ∈ net.tags) ∧
      (fpt.getD [] = [] ∨ ∃ p ∈ fpt.getD [], p ∈ net.productTypes))
    ∧ (s.dashboard = true → strTruthy s.organization_id = true →
        (list_networks s none false ft fpt (.ok response)).result =
          .inl ((filtered_networks response ft fpt).map networkView)) := by
  constructor
  · rw [filtered_networks, List.mem_filter, Bool.and_eq_true,
      tags_match_iff, product_type_match_iff]
  · intro hd ho
    obtain ⟨o, hoeq⟩ : ∃ o, s.organization_id = some o := by
      cases h : s.organization_id with
      | none => rw [h] at ho; simp [strTruthy] at ho
      | some o => exact ⟨o, rfl⟩
    have hone : o.isEmpty = false := by
      rw [hoeq] at ho; simpa [strTruthy] using ho
    rw [list_networks]
    rw [if_neg (by simp [orTruthy, strTruthy, hoeq, hone, ho])]
    rw [get_networks, if_neg (by simp [hd])]
    simp only [orTruthy, strTruthy, hoeq, Option.some.injEq]
    rw [if_neg (by simp [hone])]
    simp only [hone, Bool.false_eq_true, if_false]
    rw [fetch_data_networks]
    simp only [Bool.false_and]
    rw [fetch_data_networks_miss]
    simp [get_dashboard, hd, format_networks_output]

/-- Witness for C2: a wireless-tagged network passes both filters and a
successful fetch returns its projection. -/
theorem c2_list_networks_filtering_witness :
    (⟨"n1", "Net One", "wireless", "UTC", ["branch"], ["wireless"], ""⟩ : Network) ∈
      filtered_networks [⟨"n1", "Net One", "wireless", "UTC", ["branch"], ["wireless"], ""⟩]
        (some ["branch"]) (some ["wireless"]) ∧
    (list_networks { organization_id := some "o1", dashboard := true } none false
        (some ["branch"]) (some ["wireless"])
        (.ok [⟨"n1", "Net One", "wireless", "UTC", ["branch"], ["wireless"], ""⟩])).result =
      .inl ((filtered_networks
          [⟨"n1", "Net One", "wireless", "UTC", ["branch"], ["wireless"], ""⟩]
          (some ["branch"]) (some ["wireless"])).map networkView) :=
  ⟨(c2_list_networks_filtering
      [⟨"n1", "Net One", "wireless", "UTC", ["branch"], ["wireless"], ""⟩]
      (some ["branch"]) (some ["wireless"])
      ⟨"n1", "Net One", "wireless", "UTC", ["branch"], ["wireless"], ""⟩
      { organization_id := some "o1", dashboard := true }).1.mpr (by decide),
   (c2_list_networks_filtering
      [⟨"n1", "Net One", "wireless", "UTC", ["branch"], ["wireless"], ""⟩]
      (some ["branch"]) (some ["wireless"])
      ⟨"n1", "Net One", "wireless", "UTC", ["branch"], ["wireless"], ""⟩
      { organization_id := some "o1", dashboard := true }).2 rfl (by decide)⟩

/-- `get_dashboard` never touches the caching flag or either cache. -/
theorem get_dashboard_frame (s : WrapperState) :
    (get_dashboard s).2.enable_caching = s.enable_caching ∧
    (get_dashboard s).2.organizations_cache = s.organizations_cache ∧
    (get_dashboard s).2.networks_cache = s.networks_cache := by
  unfold get_dashboard
  split_ifs <;> exact ⟨rfl, rfl, rfl⟩

/-- Looking up the key just inserted finds the inserted value. -/
theorem dictLookup_dictInsert_self {α : Type} (d : List (String × α)) (k : String) (v : α) :
    dictLookup (dictInsert d k v) k = some v := by
  unfold dictInsert
  split_ifs with hk
  · induction d with
    | nil => simp at hk
    | cons p rest ih =>
      by_cases hp : p.1 = k
      · rw [List.map_cons, if_pos hp]
        simp [dictLookup]
      · rw [List.map_cons, if_neg hp, dictLookup, if_neg hp]
        exact ih (by simpa [hp] using hk)
  · induction d with
    | nil => simp [dictLookup]
    | cons p rest ih =>
      simp only [List.any_cons, Bool.or_eq_true, decide_eq_true_eq] at hk
      push_neg at hk
      rw [List.cons_append, dictLookup, if_neg hk.1]
      exact ih (by simpa using hk.2)

/-- With caching enabled and a warm keyless cache, `_fetch_data` returns the
stored object, leaves the state unchanged and never calls upstream. -/
theorem fetch_data_organizations_hit (s : WrapperState) (v : List Org)
    (up : UpstreamResult (List Org)) (he : s.enable_caching = true)
    (hc : s.organizations_cache = some v) :
    fetch_data_organizations s true up = ⟨.inl v, s, false⟩ := by
  simp [fetch_data_organizations, he, hc]

/-- With caching enabled and the key present in the networks cache,
`_fetch_data` returns the stored object without an upstream call. -/
theorem fetch_data_networks_hit (s : WrapperState) (key : String)
    (cache : List (String × List Network)) (w : List Network)
    (up : UpstreamResult (List Network)) (he : s.enable_caching = true)
    (hc : s.networks_cache = some cache) (hl : dictLookup cache key = some w) :
    fetch_data_networks s key true up = ⟨.inl w, s, false⟩ := by
  simp [fetch_data_networks, he, hc, hl]

/-- With caching enabled, a keyless fetch stores its data on success and the
empty list on either failure, preserving the caching flag. -/
theorem fetch_data_organizations_store (s : WrapperState) (v : List Org)
    (status : Int) (msg : String) (he : s.enable_caching = true)
    (hd : (get_dashboard s).1 = true) :
    (fetch_data_organizations s false (.ok v)).state.organizations_cache = some v ∧
    (fetch_data_organizations s false (.apiError status msg)).state.organizations_cache
      = some [] ∧
    (fetch_data_organizations s false (.exn msg)).state.organizations_cache = some [] ∧
    (fetch_data_organizations s false (.apiError status msg)).state.enable_caching = true := by
  refine ⟨?_, ?_, ?_, ?_⟩ <;>
    simp [fetch_data_organizations, fetch_data_organizations_miss, hd,
      (get_dashboard_frame s).1, (get_dashboard_frame s).2.1, he]

/-- With caching enabled, a keyed fetch stores its data (or the empty list on
failure) under the key, preserving the caching flag. -/
theorem fetch_data_networks_store (s : WrapperState) (key : String) (w : List Network)
    (status : Int) (msg : String) (he : s.enable_caching = true)
    (hd : (get_dashboard s).1 = true) :
    (fetch_data_networks s key false (.ok w)).state.networks_cache =
      some (dictInsert (s.networks_cache.getD []) key w) ∧
    (fetch_data_networks s key false (.apiError status msg)).state.networks_cache =
      some (dictInsert (s.networks_cache.getD []) key []) ∧
    (fetch_data_networks s key false (.exn msg)).state.networks_cache =
      some (dictInsert (s.networks_cache.getD []) key []) ∧
    (fetch_data_networks s key false (.apiError status msg)).state.enable_caching = true := by
  refine ⟨?_, ?_, ?_, ?_⟩ <;>
    simp [fetch_data_networks, fetch_data_networks_miss, hd, (get_dashboard_frame s).1,
      (get_dashboard_frame s).2.2, he]

/-- C3: when caching is enabled, a second fetch with `use_cache=true` for the
same key (organizations, or networks of one organization id) returns the
previously stored object without invoking the upstream fetch function and
without changing the state; a failed fetch stores the empty list under that
key, so a subsequent cached call returns the empty result. -/
theorem c3_caching_behaviour (s : WrapperState) (v : List Org) (w : List Network)
    (key : String) (cache : List (String × List Network))
    (up : UpstreamResult (List Org)) (upn : UpstreamResult (List Network))
    (status : Int) (msg : String) :
    (s.enable_caching = true → s.organizations_cache = some v →
      fetch_data_organizations s true up = ⟨.inl v, s, false⟩)
    ∧ (s.enable_caching = true → s.networks_cache = some cache →
        dictLookup cache key = some w →
        fetch_data_networks s key true upn = ⟨.inl w, s, false⟩)
    ∧ (s.enable_caching = true → (get_dashboard s).1 = true →
        (fetch_data_organizations s false (.ok v)).state.organizations_cache = some v ∧
        (fetch_data_organizations s false (.apiError status msg)).state.organizations_cache
          = some [] ∧
        (fetch_data_organizations s false (.exn msg)).state.organizations_cache = some [])
    ∧ (s.enable_caching = true → (get_dashboard s).1 = true →
        dictLookup ((fetch_data_networks s key false (.ok w)).state.networks_cache.getD [])
          key = some w ∧
        dictLookup
          ((fetch_data_networks s key false (.apiError status msg)).state.networks_cache.getD [])
          key = some [] ∧
        dictLookup ((fetch_data_networks s key false (.exn msg)).state.networks_cache.getD [])
          key = some [])
    ∧ (s.enable_caching = true → (get_dashboard s).1 = true →
        fetch_data_organizations
            (fetch_data_organizations s false (.apiError status msg)).state true up =
          ⟨.inl [], (fetch_data_organizations s false (.apiError status msg)).state, false⟩)
    ∧ (s.enable_caching = true → (get_dashboard s).1 = true →
        fetch_data_networks
            (fetch_data_networks s key false (.apiError status msg)).state key true upn =
          ⟨.inl [], (fetch_data_networks s key false (.apiError status msg)).state, false⟩) := by
  refine ⟨fetch_data_organizations_hit s v up, fetch_data_networks_hit s key cache w upn,
    ?_, ?_, ?_, ?_⟩
  · intro he hd
    have h := fetch_data_organizations_store s v status msg he hd
    exact ⟨h.1, h.2.1, h.2.2.1⟩
  · intro he hd
    have h := fetch_data_networks_store s key w status msg he hd
    refine ⟨?_, ?_, ?_⟩
    · rw [h.1]; simp [dictLookup_dictInsert_self]
    · rw [h.2.1]; simp [dictLookup_dictInsert_self]
    · rw [h.2.2.1]; simp [dictLookup_dictInsert_self]
  · intro he hd
    have h := fetch_data_organizations_store s v status msg he hd
    exact fetch_data_organizations_hit _ [] up h.2.2.2 h.2.1
  · intro he hd
    have h := fetch_data_networks_store s key w status msg he hd
    refine fetch_data_networks_hit _ key
      (dictInsert (s.networks_cache.getD []) key []) [] upn h.2.2.2 h.2.1
      (dictLookup_dictInsert_self _ key [])

/-- Witness for C3: concrete caching-enabled state with a warm cache and a
subsequent failure-then-cached-call round trip. -/
theorem c3_caching_behaviour_witness :
    fetch_data_organizations
        { enable_caching := true, organizations_cache := some [⟨"o1", "Org", "u", true, "m", ""⟩] }
        true (.exn "boom") =
      ⟨.inl [⟨"o1", "Org", "u", true, "m", ""⟩],
        { enable_caching := true,
          organizations_cache := some [⟨"o1", "Org", "u", true, "m", ""⟩] }, false⟩ :=
  (c3_caching_behaviour
    { enable_caching := true, organizations_cache := some [⟨"o1", "Org", "u", true, "m", ""⟩] }
    [⟨"o1", "Org", "u", true, "m", ""⟩] [] "k" [] (.exn "boom") (.exn "boom") 0 "m").1
    rfl rfl

/-- Inserting a fresh key appends the pair. -/
theorem dictInsert_fresh {α : Type} (d : List (String × α)) (k : String) (v : α)
    (h : d.any (fun p => p.1 = k) = false) :
    dictInsert d k v = d ++ [(k, v)] := by
  rw [dictInsert, if_neg]
  simp [h]

/-- The collection loop over networks with pairwise distinct ids, started from
an accumulator containing none of those ids, appends one entry per network. -/
theorem collect_loop_eq (up : String → UpstreamResult (List HistSample))
    (nets : List NetRecord) :
    ∀ acc : List (String × NetEntry),
      (∀ n ∈ nets, acc.any (fun p => p.1 = n.id) = false) →
      (nets.map NetRecord.id).Nodup →
      collect_loop up nets acc = acc ++ nets.map (fun n => (n.id, collect_entry up n)) := by
  induction nets with
  | nil => intro acc _ _; simp [collect_loop]
  | cons n rest ih =>
    intro acc hd hnodup
    simp only [List.map_cons, List.nodup_cons] at hnodup
    rw [collect_loop,
      dictInsert_fresh acc n.id (collect_entry up n) (hd n (List.mem_cons_self n rest)),
      ih (acc ++ [(n.id, collect_entry up n)]) ?_ hnodup.2]
    · simp
    · intro m hm
      have h1 := hd m (List.mem_cons_of_mem n hm)
      have h2 : n.id ≠ m.id := fun he =>
        hnodup.1 (he ▸ List.mem_map_of_mem NetRecord.id hm)
      simp [List.any_append, h1, h2]

/-- Lookup in an id-keyed map of records with pairwise distinct ids. -/
theorem dictLookup_map_of_mem {α : Type} (f : NetRecord → α) (nets : List NetRecord) :
    (nets.map NetRecord.id).Nodup → ∀ n ∈ nets,
      dictLookup (nets.map (fun m => (m.id, f m))) n.id = some (f n) := by
  induction nets with
  | nil => intro _ n hn; cases hn
  | cons m rest ih =>
    intro hnodup n hn
    simp only [List.map_cons, List.nodup_cons] at hnodup
    simp only [List.map_cons, dictLookup]
    rcases List.mem_cons.mp hn with he | hr
    · subst he; simp
    · have hne : m.id ≠ n.id := fun h =>
        hnodup.1 (h ▸ List.mem_map_of_mem NetRecord.id hr)
      rw [if_neg hne]
      exact ih hnodup.2 n hr

/-- C4: with an initialized dashboard client and pairwise distinct network
ids, `collect_network_data_history` yields one entry per input network id of
shape `{name, history}`; a failing network's entry is `{name, history: []}`
(for both vendor API errors and unexpected exceptions), and every other
network's entry depends only on that network's own upstream response, so the
batch is never aborted by one failure. -/
theorem c4_collect_history (s : WrapperState) (nets : List NetRecord)
    (up up' : String → UpstreamResult (List HistSample))
    (hdash : (get_dashboard s).1 = true)
    (hnodup : (nets.map NetRecord.id).Nodup) :
    ((collect_network_data_history s nets up).map Prod.fst = nets.map NetRecord.id)
    ∧ (∀ n ∈ nets, dictLookup (collect_network_data_history s nets up) n.id =
        some (collect_entry up n))
    ∧ (∀ n ∈ nets, ∀ status msg, up n.id = .apiError status msg →
        dictLookup (collect_network_data_history s nets up) n.id =
          some ⟨net_record_name n, []⟩)
    ∧ (∀ n ∈ nets, ∀ msg, up n.id = .exn msg →
        dictLookup (collect_network_data_history s nets up) n.id =
          some ⟨net_record_name n, []⟩)
    ∧ (∀ k : String, (∀ m ∈ nets, m.id ≠ k → up' m.id = up m.id) →
        ∀ m ∈ nets, m.id ≠ k →
          dictLookup (collect_network_data_history s nets up') m.id =
            dictLookup (collect_network_data_history s nets up) m.id) := by
  have heq : ∀ u : String → UpstreamResult (List HistSample),
      collect_network_data_history s nets u =
        nets.map (fun n => (n.id, collect_entry u n)) := by
    intro u
    rw [collect_network_data_history, if_neg (by simp [hdash])]
    rw [collect_loop_eq u nets [] (by simp) hnodup]
    simp
  refine ⟨?_, ?_, ?_, ?_, ?_⟩
  · rw [heq]
    simp
  · intro n hn
    rw [heq]
    exact dictLookup_map_of_mem (collect_entry up) nets hnodup n hn
  · intro n hn status msg hup
    rw [heq, dictLookup_map_of_mem (collect_entry up) nets hnodup n hn]
    simp [collect_entry, hup]
  · intro n hn msg hup
    rw [heq, dictLookup_map_of_mem (collect_entry up) nets hnodup n hn]
    simp [collect_entry, hup]
  · intro k hagree m hm hne
    rw [heq, heq, dictLookup_map_of_mem (collect_entry up) nets hnodup m hm,
      dictLookup_map_of_mem (collect_entry up') nets hnodup m hm]
    simp [collect_entry, hagree m hm hne]

/-- Witness for C4: two networks, one failing with a vendor error — the
failing one gets an empty history with its fallback name, the other keeps its
fetched history. -/
theorem c4_collect_history_witness :
    dictLookup
        (collect_network_data_history { dashboard := true }
          [⟨"n1", some "Net A"⟩, ⟨"n2", none⟩]
          (fun i => if i = "n1" then .ok [⟨"t0", "t1", some 5⟩] else .apiError 500 "err"))
        "n2" = some ⟨"Unnamed Network (n2)", []⟩ :=
  (c4_collect_history { dashboard := true } [⟨"n1", some "Net A"⟩, ⟨"n2", none⟩]
      (fun i => if i = "n1" then .ok [⟨"t0", "t1", some 5⟩] else .apiError 500 "err")
      (fun i => if i = "n1" then .ok [⟨"t0", "t1", some 5⟩] else .apiError 500 "err")
      (by decide) (by decide)).2.2.1
    ⟨"n2", none⟩ (by decide) 500 "err" (by decide)

/-- Error dictionaries produced by the post-cache part of keyless
`_fetch_data`: dashboard not initialized, vendor API error with its status,
or unexpected exception. -/
theorem fetch_data_organizations_miss_error (s : WrapperState)
    (up : UpstreamResult (List Org)) :
    ∀ e, (fetch_data_organizations_miss s up).result = .inr e →
      e = ⟨"DashboardAPIError", "Meraki Dashboard API not initialized.", none⟩ ∨
      (∃ st m, up = .apiError st m ∧ e = ⟨"MerakiAPIError", m, some st⟩) ∨
      (∃ m, up = .exn m ∧ e = ⟨"UnexpectedError", m, none⟩) := by
  intro e h
  unfold fetch_data_organizations_miss at h
  by_cases hd : (get_dashboard s).1 = true
  · rw [if_neg (by simp [hd])] at h
    cases up with
    | ok data => exact absurd h (by simp)
    | apiError st m => exact Or.inr (Or.inl ⟨st, m, rfl, (Sum.inr.inj h).symm⟩)
    | exn m => exact Or.inr (Or.inr ⟨m, rfl, (Sum.inr.inj h).symm⟩)
  · rw [if_pos (by simp [hd])] at h
    exact Or.inl (Sum.inr.inj h).symm

/-- Error dictionaries produced by keyless `_fetch_data` (the cache hit path
yields no error). -/
theorem fetch_data_organizations_error (s : WrapperState) (uc : Bool)
    (up : UpstreamResult (List Org)) :
    ∀ e, (fetch_data_organizations s uc up).result = .inr e →
      e = ⟨"DashboardAPIError", "Meraki Dashboard API not initialized.", none⟩ ∨
      (∃ st m, up = .apiError st m ∧ e = ⟨"MerakiAPIError", m, some st⟩) ∨
      (∃ m, up = .exn m ∧ e = ⟨"UnexpectedError", m, none⟩) := by
  intro e h
  unfold fetch_data_organizations at h
  cases h1 : uc && s.enable_caching <;> rw [h1] at h
  · exact fetch_data_organizations_miss_error s up e h
  · cases h2 : s.organizations_cache <;> rw [h2] at h
    · exact fetch_data_organizations_miss_error s up e h
    · exact absurd h (by simp)

/-- Error dictionaries produced by the post-cache part of keyed
`_fetch_data`. -/
theorem fetch_data_networks_miss_error (s : WrapperState) (key : String)
    (up : UpstreamResult (List Network)) :
    ∀ e, (fetch_data_networks_miss s key up).result = .inr e →
      e = ⟨"DashboardAPIError", "Meraki Dashboard API not initialized.", none⟩ ∨
      (∃ st m, up = .apiError st m ∧ e = ⟨"MerakiAPIError", m, some st⟩) ∨
      (∃ m, up = .exn m ∧ e = ⟨"UnexpectedError", m, none⟩) := by
  intro e h
  unfold fetch_data_networks_miss at h
  by_cases hd : (get_dashboard s).1 = true
  · rw [if_neg (by simp [hd])] at h
    cases up with
    | ok data => exact absurd h (by simp)
    | apiError st m => exact Or.inr (Or.inl ⟨st, m, rfl, (Sum.inr.inj h).symm⟩)
    | exn m => exact Or.inr (Or.inr ⟨m, rfl, (Sum.inr.inj h).symm⟩)
  · rw [if_pos (by simp [hd])] at h
    exact Or.inl (Sum.inr.inj h).symm

/-- Error dictionaries produced by keyed `_fetch_data`. -/
theorem fetch_data_networks_error (s : WrapperState) (key : String) (uc : Bool)
    (up : UpstreamResult (List Network)) :
    ∀ e, (fetch_data_networks s key uc up).result = .inr e →
      e = ⟨"DashboardAPIError", "Meraki Dashboard API not initialized.", none⟩ ∨
      (∃ st m, up = .apiError st m ∧ e = ⟨"MerakiAPIError", m, some st⟩) ∨
      (∃ m, up = .exn m ∧ e = ⟨"UnexpectedError", m, none⟩) := by
  intro e h
  unfold fetch_data_networks at h
  cases h1 : uc && s.enable_caching <;> rw [h1] at h
  · exact fetch_data_networks_miss_error s key up e h
  · cases h2 : s.networks_cache <;> rw [h2] at h
    · exact fetch_data_networks_miss_error s key up e h
    · rename_i cache
      have h' : (match dictLookup cache key with
          | some v => (⟨.inl v, s, false⟩ : FetchOut (List Network))
          | none => fetch_data_networks_miss s key up).result = .inr e := h
      cases h3 : dictLookup cache key <;> rw [h3] at h'
      · exact fetch_data_networks_miss_error s key up e h'
      · exact absurd h' (by simp)

/-- Error dictionaries produced by `_get_organizations`. -/
theorem get_organizations_error (s : WrapperState) (uc : Bool)
    (up : UpstreamResult (List Org)) :
    ∀ e, (get_organizations s uc up).result = .inr e →
      (e.error = "DashboardAPIError" ∧ e.status_code = none) ∨
      (∃ st m, up = .apiError st m ∧ e = ⟨"MerakiAPIError", m, some st⟩) ∨
      (∃ m, up = .exn m ∧ e = ⟨"UnexpectedError", m, none⟩) := by
  intro e h
  unfold get_organizations at h
  by_cases hd : s.dashboard = true
  · rw [if_neg (by simp [hd])] at h
    rcases fetch_data_organizations_error s uc up e h with h' | h' | h'
    · exact Or.inl ⟨by rw [h'], by rw [h']⟩
    · exact Or.inr (Or.inl h')
    · exact Or.inr (Or.inr h')
  · rw [if_pos (by simp [hd])] at h
    rw [← Sum.inr.inj h]
    exact Or.inl ⟨rfl, rfl⟩

/-- Error dictionaries produced by `_get_networks`: additionally the
"no organization selected" case. -/
theorem get_networks_error (s : WrapperState) (oid : Option String) (uc : Bool)
    (up : UpstreamResult (List Network)) :
    ∀ e, (get_networks s oid uc up).result = .inr e →
      ((e.error = "DashboardAPIError" ∨ e.error = "NoOrganizationSelected") ∧
        e.status_code = none) ∨
      (∃ st m, up = .apiError st m ∧ e = ⟨"MerakiAPIError", m, some st⟩) ∨
      (∃ m, up = .exn m ∧ e = ⟨"UnexpectedError", m, none⟩) := by
  intro e h
  unfold get_networks at h
  by_cases hd : s.dashboard = true
  · rw [if_neg (by simp [hd])] at h
    cases ho : orTruthy oid s.organization_id <;> rw [ho] at h
    · rw [← Sum.inr.inj h]
      exact Or.inl ⟨Or.inr rfl, rfl⟩
    · rename_i o
      have h0 : (if o.isEmpty = true then
            (⟨.inr ⟨"NoOrganizationSelected", "Please select an organization first.", none⟩,
              s, false⟩ : FetchOut (List Network))
          else fetch_data_networks s o uc up).result = .inr e := h
      by_cases hoe : o.isEmpty = true
      · rw [if_pos hoe] at h0
        rw [← Sum.inr.inj h0]
        exact Or.inl ⟨Or.inr rfl, rfl⟩
      · rw [if_neg hoe] at h0
        rcases fetch_data_networks_error s o uc up e h0 with h' | h' | h'
        · exact Or.inl ⟨Or.inl (by rw [h']), by rw [h']⟩
        · exact Or.inr (Or.inl h')
        · exact Or.inr (Or.inr h')
  · rw [if_pos (by simp [hd])] at h
    rw [← Sum.inr.inj h]
    exact Or.inl ⟨Or.inl rfl, rfl⟩

/-- The formatting step passes error results through unchanged. -/
theorem format_organizations_output_error (o : FetchOut (List Org)) :
    ∀ e, (format_organizations_output o).result = .inr e → o.result = .inr e := by
  intro e h
  obtain ⟨r, st, b⟩ := o
  cases r with
  | inl l => exact absurd h (by simp [format_organizations_output])
  | inr e' => simpa [format_organizations_output] using h

/-- The filter/projection step passes error results through unchanged. -/
theorem format_networks_output_error (ft fpt : Option (List String))
    (o : FetchOut (List Network)) :
    ∀ e, (format_networks_output ft fpt o).result = .inr e → o.result = .inr e := by
  intro e h
  obtain ⟨r, st, b⟩ := o
  cases r with
  | inl l => exact absurd h (by simp [format_networks_output])
  | inr e' => simpa [format_networks_output] using h

/-- An error of `list_networks` is the configuration error or an error of
`_get_networks`. -/
theorem list_networks_error_cases (s : WrapperState) (oid : Option String)
    (uc : Bool) (ft fpt : Option (List String)) (up : UpstreamResult (List Network)) :
    ∀ e, (list_networks s oid uc ft fpt up).result = .inr e →
      e = ⟨"ConfigurationError",
        "Organization ID is not provided and cannot be determined.", none⟩ ∨
      (get_networks s oid uc up).result = .inr e := by
  intro e h
  unfold list_networks at h
  by_cases hcfg : strTruthy (orTruthy oid s.organization_id) = true
  · rw [if_neg (by simp [hcfg])] at h
    exact Or.inr (format_networks_output_error ft fpt _ e h)
  · rw [if_pos (by simp [hcfg])] at h
    exact Or.inl (Sum.inr.inj h).symm

/-- C7: `list_organizations` and `list_networks` return either a list of
records or a tagged error dictionary carrying a kind and details; the kinds
separate not-configured (`DashboardAPIError`, `NoOrganizationSelected`,
`ConfigurationError`, all without a status code), upstream API error
(`MerakiAPIError`, which alone carries the vendor status code), and
unexpected error (`UnexpectedError`), and these kind strings are pairwise
distinct. -/
theorem c7_error_taxonomy (s : WrapperState) (oid : Option String) (uc : Bool)
    (ft fpt : Option (List String))
    (upo : UpstreamResult (List Org)) (upn : UpstreamResult (List Network)) :
    (∀ e, (list_organizations s uc upo).result = .inr e →
      ((e.error = "DashboardAPIError" ∧ e.status_code = none) ∨
       (∃ st m, upo = .apiError st m ∧ e = ⟨"MerakiAPIError", m, some st⟩) ∨
       (∃ m, upo = .exn m ∧ e = ⟨"UnexpectedError", m, none⟩)))
    ∧ (∀ e, (list_networks s oid uc ft fpt upn).result = .inr e →
      (((e.error = "ConfigurationError" ∨ e.error = "DashboardAPIError" ∨
          e.error = "NoOrganizationSelected") ∧ e.status_code = none) ∨
       (∃ st m, upn = .apiError st m ∧ e = ⟨"MerakiAPIError", m, some st⟩) ∨
       (∃ m, upn = .exn m ∧ e = ⟨"UnexpectedError", m, none⟩)))
    ∧ (∀ e, (list_organizations s uc upo).result = .inr e →
        (e.status_code.isSome = true ↔ e.error = "MerakiAPIError"))
    ∧ (∀ e, (list_networks s oid uc ft fpt upn).result = .inr e →
        (e.status_code.isSome = true ↔ e.error = "MerakiAPIError"))
    ∧ (["ConfigurationError", "DashboardAPIError", "NoOrganizationSelected",
        "MerakiAPIError", "UnexpectedError"] : List String).Nodup := by
  have horg : ∀ e, (list_organizations s uc upo).result = .inr e →
      ((e.error = "DashboardAPIError" ∧ e.status_code = none) ∨
       (∃ st m, upo = .apiError st m ∧ e = ⟨"MerakiAPIError", m, some st⟩) ∨
       (∃ m, upo = .exn m ∧ e = ⟨"UnexpectedError", m, none⟩)) := by
    intro e h
    unfold list_organizations at h
    exact get_organizations_error s uc upo e (format_organizations_output_error _ e h)
  have hnet : ∀ e, (list_networks s oid uc ft fpt upn).result = .inr e →
      (((e.error = "ConfigurationError" ∨ e.error = "DashboardAPIError" ∨
          e.error = "NoOrganizationSelected") ∧ e.status_code = none) ∨
       (∃ st m, upn = .apiError st m ∧ e = ⟨"MerakiAPIError", m, some st⟩) ∨
       (∃ m, upn = .exn m ∧ e = ⟨"UnexpectedError", m, none⟩)) := by
    intro e h
    rcases list_networks_error_cases s oid uc ft fpt upn e h with h' | h'
    · exact Or.inl ⟨Or.inl (by rw [h']), by rw [h']⟩
    · rcases get_networks_error s oid uc upn e h' with ⟨h1, h2⟩ | h1 | h1
      · exact Or.inl ⟨Or.inr h1, h2⟩
      · exact Or.inr (Or.inl h1)
      · exact Or.inr (Or.inr h1)
  refine ⟨horg, hnet, ?_, ?_, by decide⟩
  · intro e h
    rcases horg e h with ⟨h1, h2⟩ | ⟨st, m, _, he⟩ | ⟨m, _, he⟩
    · rw [h1, h2]
      simp
    · rw [he]
      simp
    · rw [he]
      simp
  · intro e h
    rcases hnet e h with ⟨h1, h2⟩ | ⟨st, m, _, he⟩ | ⟨m, _, he⟩
    · rw [h2]
      rcases h1 with h1 | h1 | h1 <;> rw [h1] <;> simp
    · rw [he]
      simp
    · rw [he]
      simp

/-- Witness for C7: a vendor rejection surfaces as a `MerakiAPIError` carrying
the vendor status code, and that kind alone has a status code. -/
theorem c7_error_taxonomy_witness :
    (list_networks { organization_id := some "o1", dashboard := true } none false none none
        (.apiError 404 "not found")).result =
      .inr ⟨"MerakiAPIError", "not found", some 404⟩ ∧
    ((⟨"MerakiAPIError", "not found", some 404⟩ : ErrorDict).status_code.isSome = true ↔
      (⟨"MerakiAPIError", "not found", some 404⟩ : ErrorDict).error = "MerakiAPIError") :=
  ⟨by decide,
   (c7_error_taxonomy { organization_id := some "o1", dashboard := true } none false
      none none (.exn "x") (.apiError 404 "not found")).2.2.2.1
     ⟨"MerakiAPIError", "not found", some 404⟩ (by decide)⟩

/-- A network with no sample at the row's index gets a count cell of `0`. -/
theorem csv_count_cell_missing (history : List HistSample) (i : Nat)
    (h : history.length ≤ i) : csv_count_cell history i = .int 0 := by
  unfold csv_count_cell
  rw [List.get?_eq_none.mpr h]

/-- C8: the chart-data CSV has exactly `len(timestamps)+1` rows — the header
(`"Timestamp"` followed by one column per network of the dataset) and one row
per timestamp — every row has exactly `networks+1` columns, and a cell whose
network has no sample at that row's index holds the count `0`. -/
theorem c8_csv_shape (graph_data : List (String × NetEntry)) (timestamps : List String) :
    (csv_rows graph_data timestamps).length = timestamps.length + 1
    ∧ (∀ row ∈ csv_rows graph_data timestamps, row.length = graph_data.length + 1)
    ∧ (csv_rows graph_data timestamps).head? =
        some (Cell.str "Timestamp" :: graph_data.map (fun p => Cell.str p.2.name))
    ∧ (∀ i, i < timestamps.length →
        (csv_rows graph_data timestamps)[i + 1]? =
          some (csv_data_row graph_data (timestamps.getD i "") i))
    ∧ (∀ i ts j, (h : j < graph_data.length) →
        (graph_data.get ⟨j, h⟩).2.history.length ≤ i →
        (csv_data_row graph_data ts i)[j + 1]? = some (Cell.int 0)) := by
  refine ⟨?_, ?_, ?_, ?_, ?_⟩
  · simp [csv_rows]
  · intro row hrow
    rcases List.mem_cons.mp hrow with he | ht
    · rw [he, csv_header]
      simp
    · rcases List.mem_map.mp ht with ⟨i, _, he⟩
      rw [← he, csv_data_row]
      simp
  · rw [csv_rows, csv_header]
    rfl
  · intro i hi
    rw [csv_rows, List.getElem?_cons_succ]
    simp [List.getElem?_range, hi]
  · intro i ts j h hlen
    rw [csv_data_row, List.getElem?_cons_succ]
    rw [List.getElem?_map, List.getElem?_eq_getElem h]
    exact congrArg some (csv_count_cell_missing _ _ hlen)

/-- Witness for C8: a two-network dataset over three timestamps, the second
network lacking a sample at index 2, yields a `0` cell there. -/
theorem c8_csv_shape_witness :
    (csv_data_row
        [("n1", ⟨"A", [⟨"a", "b", some 1⟩, ⟨"b", "c", some 2⟩, ⟨"c", "d", some 3⟩]⟩),
         ("n2", ⟨"B", [⟨"a", "b", some 7⟩]⟩)] "2024-01-01 00:00" 2)[2]? =
      some (Cell.int 0) :=
  (c8_csv_shape
      [("n1", ⟨"A", [⟨"a", "b", some 1⟩, ⟨"b", "c", some 2⟩, ⟨"c", "d", some 3⟩]⟩),
       ("n2", ⟨"B", [⟨"a", "b", some 7⟩]⟩)] ["t0", "t1", "t2"]).2.2.2.2
    2 "2024-01-01 00:00" 1 (by decide) (by decide)

/-- Taking as many elements as a replicated block is long returns the
block. -/
theorem take_replicate_append {α : Type} (n : Nat) (c : α) (rest : List α) :
    (List.replicate n c ++ rest).take n = List.replicate n c := by
  have h := List.take_left (List.replicate n c) rest
  rwa [List.length_replicate] at h

/-- C9: when the api key is required, `get_current_app_params` displays
`"N/A"` for an unset key and otherwise one asterisk per character beyond the
last four followed by the key's last four characters (the whole key when its
length is at most 4); every character before the last four is an asterisk. -/
theorem c9_api_key_masking (s : WrapperState)
    (hreq : s.required_app_setup_param.api_key = true) :
    ((s.api_key = none ∨ s.api_key = some "") →
      dictLookup (get_current_app_params s) "api_key" = some ⟨"N/A", "API Key"⟩)
    ∧ (∀ k : String, s.api_key = some k → k ≠ "" →
        dictLookup (get_current_app_params s) "api_key" =
          some ⟨String.mk (List.replicate (k.length - 4) '*' ++
            k.data.drop (k.length - 4)), "API Key"⟩)
    ∧ (∀ k : String, s.api_key = some k → k ≠ "" → k.length ≤ 4 →
        dictLookup (get_current_app_params s) "api_key" = some ⟨k, "API Key"⟩)
    ∧ (∀ k : String, ∀ c ∈ (masked_api_key (some k)).data.take (k.length - 4),
        c = '*') := by
  have hlook : dictLookup (get_current_app_params s) "api_key" =
      some ⟨masked_api_key s.api_key, "API Key"⟩ := by
    simp only [get_current_app_params]
    rw [if_pos hreq]
    simp [dictLookup]
  have hne : ∀ k : String, k ≠ "" → k.toList.isEmpty = false := by
    intro k hk
    cases hli : k.toList.isEmpty
    · rfl
    · exact absurd (by ext1; simpa using List.isEmpty_iff.mp hli) hk
  have hmask : ∀ k : String, k ≠ "" → masked_api_key (some k) =
      String.mk (List.replicate (k.length - 4) '*' ++ k.data.drop (k.length - 4)) := by
    intro k hk
    simp only [masked_api_key, Option.getD_some]
    rw [if_neg (by rw [hne k hk]; simp)]
    rfl
  refine ⟨?_, ?_, ?_, ?_⟩
  · rintro (h | h) <;> rw [hlook, h] <;> rfl
  · intro k hk hke
    rw [hlook, hk, hmask k hke]
  · intro k hk hke hlen
    rw [hlook, hk, hmask k hke]
    have h4 : k.length - 4 = 0 := Nat.sub_eq_zero_of_le hlen
    rw [h4]
    simp
  · intro k c hc
    by_cases hk : k = ""
    · subst hk
      have h0 : ("" : String).length - 4 = 0 := rfl
      rw [h0, List.take_zero] at hc
      exact absurd hc (List.not_mem_nil c)
    · rw [hmask k hk] at hc
      have hc' : c ∈ (List.replicate (k.length - 4) '*' ++
          k.data.drop (k.length - 4)).take (k.length - 4) := hc
      rw [take_replicate_append] at hc'
      exact List.eq_of_mem_replicate hc'

/-- Witness for C9: a 9-character key is displayed as five asterisks followed
by its last four characters. -/
theorem c9_api_key_masking_witness :
    dictLookup
        (get_current_app_params
          { api_key := some "secretkey", required_app_setup_param := { api_key := true } })
        "api_key" =
      some ⟨String.mk (List.replicate ("secretkey".length - 4) '*' ++
        "secretkey".data.drop ("secretkey".length - 4)), "API Key"⟩ :=
  (c9_api_key_masking
      { api_key := some "secretkey", required_app_setup_param := { api_key := true } }
      rfl).2.1 "secretkey" rfl (by decide)

end WirelessClientGraph
